import Mathlib

/-!
Verification of the drift-driver car simulation.

The development shallowly embeds the arithmetic core of the repository:

* `CarController.updateForward` (steering, drift limiting, heading
  integration, grip, boost ramp, thrust/drag selection, tire marks,
  world wrap) — `updateForward`;
* `CarController.handleCollision` (car vs obstacle, current scene) —
  `handleCollision`;
* `CarController.handlePlayerCollision` (car vs car, battle mode) —
  `handlePlayerCollision`;
* the legacy obstacle collider callback of `Game_OLD.ts` —
  `obstacleCollisionOld`;
* the boost-fuel refill on pickup collection (`Game.ts`) — `pickupRefill`;
* the incoming-message dispatch of `NetworkManager.setupConnection` —
  `onDataStep`.

The source computes with IEEE doubles and the transcendental functions of
`Math`.  The embedding computes with exact rationals and abstracts
`Math.sqrt`, `Math.exp`, `Math.cos`, `Math.sin`, `Math.atan2` as a
parameter structure `MathPrims`; each theorem assumes only the facts about
those functions at the points where the modelled code applies them.
`Math.PI` is embedded as the rational printed value `mPI` of the double
constant.
-/

namespace DriftDriver

/-- Abstract interface for the `Math` primitives used by the source.
The model is parametric in these so that theorems quantify over any
implementation agreeing with real square root / exponential / trigonometry
at the relevant points. -/
structure MathPrims where
  sqrt : ℚ → ℚ
  exp : ℚ → ℚ
  cos : ℚ → ℚ
  sin : ℚ → ℚ
  atan2 : ℚ → ℚ → ℚ

/-- The constant `Math.PI` as printed for an IEEE double. -/
def mPI : ℚ := 3.141592653589793

-- ==== Tuning constants of CarController.ts (names follow the source) ====

/-- `forwardThrust = 325`. -/
def forwardThrust : ℚ := 325

/-- `drag = 160` (linear drag in px/s²). -/
def dragLinear : ℚ := 160

/-- `maxSpeed = 310`. -/
def maxSpeed : ℚ := 310

/-- `boostThrust = 600`. -/
def boostThrust : ℚ := 600

/-- `boostMaxSpeed = 512`. -/
def boostMaxSpeed : ℚ := 512

/-- `boostMax = 1.25` — capacity of the boost fuel gauge. -/
def boostMax : ℚ := 1.25

/-- `boostDrainRate = 0.4`. -/
def boostDrainRate : ℚ := 0.4

/-- `boostRefillAmount = 0.35`. -/
def boostRefillAmount : ℚ := 0.35

/-- `boostRampUp = 5.0` — per-second rate at which boost intensity ramps up. -/
def boostRampUp : ℚ := 5

/-- `boostRampDown = 3.5` — per-second rate at which boost intensity ramps down. -/
def boostRampDown : ℚ := 3.5

/-- `brakeDragMultiplier = 5.0`. -/
def brakeDragMultiplier : ℚ := 5

/-- `brakeSteerBoost = 1.2`. -/
def brakeSteerBoost : ℚ := 1.2

/-- `targetAngularVel = 4.0`. -/
def targetAngularVel : ℚ := 4

/-- `minSteerFraction = 0.15`. -/
def minSteerFraction : ℚ := 0.15

/-- `steerSmoothing = 35`. -/
def steerSmoothing : ℚ := 35

/-- `returnSmoothing = 35`. -/
def returnSmoothing : ℚ := 35

/-- `maxDriftAngle = 2.2`. -/
def maxDriftAngle : ℚ := 2.2

/-- `driftSoftness = 0.1`. -/
def driftSoftness : ℚ := 0.1

/-- `gripRate = 4.5`. -/
def gripRate : ℚ := 4.5

/-- `brakeGripRate = 1.4`. -/
def brakeGripRate : ℚ := 1.4

-- ==== Angle wrapping (the `while` loops of CarController.ts) ====

/-- The loop `while (drift > Math.PI) drift -= Math.PI * 2`. -/
def wrapDown (q : ℚ) : ℚ :=
  if h : mPI < q then wrapDown (q - 2 * mPI) else q
termination_by (⌈(q - mPI) / (2 * mPI)⌉).toNat
decreasing_by
  have h2 : (2 * mPI : ℚ) ≠ 0 := by norm_num [mPI]
  have h2p : (0 : ℚ) < 2 * mPI := by norm_num [mPI]
  have harg : q - 2 * mPI - mPI = q - mPI - 2 * mPI := by ring
  have hpos : (0 : ℤ) < ⌈(q - mPI) / (2 * mPI)⌉ := by
    rw [Int.ceil_pos]
    exact div_pos (by linarith) h2p
  rw [harg, sub_div, div_self h2, Int.ceil_sub_one]
  omega

/-- The loop `while (drift < -Math.PI) drift += Math.PI * 2`. -/
def wrapUp (q : ℚ) : ℚ :=
  if h : q < -mPI then wrapUp (q + 2 * mPI) else q
termination_by (⌈(-mPI - q) / (2 * mPI)⌉).toNat
decreasing_by
  have h2 : (2 * mPI : ℚ) ≠ 0 := by norm_num [mPI]
  have h2p : (0 : ℚ) < 2 * mPI := by norm_num [mPI]
  have harg : -mPI - (q + 2 * mPI) = -mPI - q - 2 * mPI := by ring
  have hpos : (0 : ℤ) < ⌈(-mPI - q) / (2 * mPI)⌉ := by
    rw [Int.ceil_pos]
    exact div_pos (by linarith) h2p
  rw [harg, sub_div, div_self h2, Int.ceil_sub_one]
  omega

/-- Both wrap loops in source order: first pull the angle down below `π`,
then up above `-π`.  Applied to every drift-angle difference before it is
compared. -/
def wrapPi (q : ℚ) : ℚ := wrapUp (wrapDown q)

-- ==== World wrap ====

/-- Modelled from the spec: the engine call
`this.scene.physics.world.wrap(this.headSprite, 0)` at the end of
`CarController.updateForward` is Phaser engine code, not part of this
repository's sources.  Spec §4.1 step 9 describes it: "position wraps at
world bounds (toroidal arena) rather than clamping — a car exiting one
edge reappears at the opposite edge."  It is modelled as the canonical
toroidal wrap of a coordinate into `[0, bound)`. -/
def torusWrap (bound q : ℚ) : ℚ := q - bound * ⌊q / bound⌋

-- ==== Car state and input ====

/-- The mutable per-car state read and written by
`CarController.updateForward`: sprite position, Arcade body velocity,
manual heading and angular velocity, boost and tire-mark resources, and
the Arcade body properties (acceleration, drag, max speed) that the update
writes back each tick. -/
structure CarState where
  x : ℚ := 0
  y : ℚ := 0
  vx : ℚ := 0
  vy : ℚ := 0
  headAngle : ℚ := 0
  angularVel : ℚ := 0
  boostFuel : ℚ := 0
  boostIntensity : ℚ := 0
  tireMarkIntensity : ℚ := 0
  accX : ℚ := 0
  accY : ℚ := 0
  dragX : ℚ := 0
  dragY : ℚ := 0
  bodyMaxSpeed : ℚ := 0
deriving DecidableEq

/-- The `CarInput` interface of CarController.ts. -/
structure CarInput where
  turnInput : ℚ := 0
  thrustInput : Bool := false
  brakeInput : Bool := false
  reverseInput : Bool := false
  isAccelerating : Bool := false
deriving DecidableEq

/-- `body.speed` — the magnitude of the Arcade body velocity. -/
def carSpeed (P : MathPrims) (s : CarState) : ℚ :=
  P.sqrt (s.vx * s.vx + s.vy * s.vy)

/-- The steering part of `CarController.updateForward`: exponential
smoothing of angular velocity toward the steering target, the drift-angle
soft limit, and the handbrake steer nudge.  Returns the angular velocity
used for this tick's heading integration (the source's `this.angularVel`
right before `headAngle += angularVel * dt`). -/
def steeredAngularVel (P : MathPrims) (s : CarState) (input : CarInput)
    (dt : ℚ) : ℚ :=
  let speed := carSpeed P s
  let speedRatio := min (speed / maxSpeed) 1
  let steerScale := minSteerFraction + (1 - minSteerFraction) * speedRatio
  let speedFactor := min (speed / maxSpeed) 1
  let adjustedTurnRate := targetAngularVel * (0.6 + 0.4 * speedFactor)
  let targetAV := input.turnInput * adjustedTurnRate * steerScale
  let smoothRate := if input.turnInput ≠ 0 then steerSmoothing else returnSmoothing
  let lerpFactor := 1 - P.exp (-(smoothRate * dt))
  let av1 := s.angularVel + (targetAV - s.angularVel) * lerpFactor
  let av2 :=
    if 1 < speed then
      let velAngle := P.atan2 s.vy s.vx
      let drift := wrapPi (s.headAngle - velAngle)
      let softStart := maxDriftAngle - driftSoftness
      let absDrift := |drift|
      if softStart < absDrift then
        let resistance := min ((absDrift - softStart) / driftSoftness) 1
        let pushback := resistance * resistance * 8 * dt
        if 0 < drift then max (av1 - pushback) (-targetAngularVel)
        else min (av1 + pushback) targetAngularVel
      else av1
    else av1
  if input.brakeInput ∧ input.turnInput ≠ 0 then
    av2 + input.turnInput * brakeSteerBoost * dt
  else av2

/-- The grip part of `CarController.updateForward`: blend the velocity
direction toward the (already integrated) heading, guarded by the speed
epsilon and the direction-length epsilon. -/
def grippedVel (P : MathPrims) (s : CarState) (input : CarInput)
    (dt : ℚ) : ℚ × ℚ :=
  let speed := carSpeed P s
  if 1 < speed then
    let headAngle1 := s.headAngle + steeredAngularVel P s input dt * dt
    let facingX := P.cos headAngle1
    let facingY := P.sin headAngle1
    let grip := if input.brakeInput then brakeGripRate else gripRate
    let velDirX := s.vx / speed
    let velDirY := s.vy / speed
    let blend := 1 - P.exp (-(grip * dt))
    let newDirX := velDirX + (facingX - velDirX) * blend
    let newDirY := velDirY + (facingY - velDirY) * blend
    let dirLen := P.sqrt (newDirX * newDirX + newDirY * newDirY)
    if 0.001 < dirLen then (newDirX / dirLen * speed, newDirY / dirLen * speed)
    else (s.vx, s.vy)
  else (s.vx, s.vy)

/-- The boost-ramp part of `CarController.updateForward`: the new
`(boostIntensity, boostFuel)` pair. -/
def boostPairOf (s : CarState) (input : CarInput) (dt : ℚ) : ℚ × ℚ :=
  if input.thrustInput ∧ 0 < s.boostFuel ∧ ¬ input.brakeInput then
    (min 1 (s.boostIntensity + boostRampUp * dt),
     max 0 (s.boostFuel - boostDrainRate * dt))
  else (max 0 (s.boostIntensity - boostRampDown * dt), s.boostFuel)

/-- The tire-mark target of `CarController.updateTireMarks`: drift-based
when drifting fast, overridden by brake-based skid at speed; reads the
post-grip velocity and the pre-update speed, as the source does. -/
def tireTargetOf (P : MathPrims) (s : CarState) (input : CarInput)
    (dt : ℚ) : ℚ :=
  let speed := carSpeed P s
  let headAngle1 := s.headAngle + steeredAngularVel P s input dt * dt
  let nv := grippedVel P s input dt
  let tmVelAngle := P.atan2 nv.2 nv.1
  let tmDrift := wrapPi (headAngle1 - tmVelAngle)
  let absDrift := |tmDrift|
  let tireThreshold : ℚ := 0.5
  let tireFull : ℚ := 1
  let target0 :=
    if tireThreshold < absDrift ∧ 90 < speed then
      min ((absDrift - tireThreshold) / (tireFull - tireThreshold)) 1
    else 0
  if input.brakeInput ∧ 30 < speed then max target0 (min (speed / 150) 1)
  else target0

/-- The smoothed tire-mark intensity after one tick of
`CarController.updateTireMarks`, including the snap-to-zero of small
residual values. -/
def tireMarkNext (P : MathPrims) (s : CarState) (input : CarInput)
    (dt : ℚ) : ℚ :=
  let target := tireTargetOf P s input dt
  let tireRampSpeed : ℚ := if s.tireMarkIntensity < target then 2.4 else 6.5
  let tireLerp := 1 - P.exp (-(tireRampSpeed * dt))
  let tmi1 := s.tireMarkIntensity + (target - s.tireMarkIntensity) * tireLerp
  if target = 0 ∧ tmi1 < 0.01 then 0 else tmi1

/-- The manual edge checks at the end of `CarController.updateForward`
(both tests read the pre-wrap coordinate): `< 0` snaps to the far bound,
`> bound` snaps to `0`, anything else — including exactly `bound` — is
left alone. -/
def edgeWrap (bound q : ℚ) : ℚ :=
  if q < 0 then bound else if bound < q then 0 else q

/-- Shallow embedding of `CarController.updateForward(dt, input)`:
steering smoothing, drift-angle soft limiting, heading integration with
the fixed 0.95 angular damping, grip (velocity-direction blend toward
heading), boost ramp and fuel drain, thrust/drag regime selection, tire
mark intensity, and the position wrap (the manual edge checks followed by
the engine wrap `torusWrap`).  Sprite-frame updates are presentation and
are not modelled. -/
def updateForward (P : MathPrims) (width height : ℚ) (s : CarState)
    (input : CarInput) (dt : ℚ) : CarState :=
  let av3 := steeredAngularVel P s input dt
  let headAngle1 := s.headAngle + av3 * dt
  let newVel := grippedVel P s input dt
  let wantsBoost := input.thrustInput ∧ 0 < s.boostFuel ∧ ¬ input.brakeInput
  let boostPair := boostPairOf s input dt
  let t := boostPair.1
  let thrust := forwardThrust + (boostThrust - forwardThrust) * t
  let activeMaxSpeed := maxSpeed + (boostMaxSpeed - maxSpeed) * t
  let facingX := P.cos headAngle1
  let facingY := P.sin headAngle1
  let regime :=
    if input.brakeInput then
      (dragLinear * brakeDragMultiplier, dragLinear * brakeDragMultiplier,
       facingX * thrust * 0.15, facingY * thrust * 0.15)
    else if input.isAccelerating ∨ wantsBoost then
      (dragLinear, dragLinear, facingX * thrust, facingY * thrust)
    else
      (dragLinear, dragLinear, (0 : ℚ), (0 : ℚ))
  { x := torusWrap width (edgeWrap width s.x)
    y := torusWrap height (edgeWrap height s.y)
    vx := newVel.1
    vy := newVel.2
    headAngle := headAngle1
    angularVel := av3 * 0.95
    boostFuel := boostPair.2
    boostIntensity := boostPair.1
    tireMarkIntensity := tireMarkNext P s input dt
    accX := regime.2.2.1
    accY := regime.2.2.2
    dragX := regime.1
    dragY := regime.2.1
    bodyMaxSpeed := activeMaxSpeed }

-- ==== Boost refill (Game.ts pickup collection) ====

/-- The refill on pickup collection, Game.ts:
`this.boostFuel = Math.min(this.boostMax, this.boostFuel + this.boostRefillAmount)`. -/
def pickupRefill (fuel : ℚ) : ℚ := min boostMax (fuel + boostRefillAmount)

/-- An event affecting boost fuel: one physics tick, or one pickup
collection. -/
inductive BoostEv where
  | tick (input : CarInput) (dt : ℚ)
  | pickup

/-- The tick duration carried by a boost event (`0` for a pickup). -/
def dtOf : BoostEv → ℚ
  | .tick _ dt => dt
  | .pickup => 0

/-- Apply one boost event to a car state. -/
def boostStep (P : MathPrims) (width height : ℚ) (s : CarState) : BoostEv → CarState
  | .tick input dt => updateForward P width height s input dt
  | .pickup => { s with boostFuel := pickupRefill s.boostFuel }

/-- Run a sequence of ticks and pickups. -/
def runBoostEvents (P : MathPrims) (width height : ℚ) (l : List BoostEv)
    (s : CarState) : CarState :=
  l.foldl (boostStep P width height) s

-- ==== Collisions ====

/-- The guarded distance `Math.sqrt(dx*dx + dy*dy) || 1` of
`handlePlayerCollision` (a zero distance falls back to 1). -/
def guardedDist (P : MathPrims) (dx dy : ℚ) : ℚ :=
  let d := P.sqrt (dx * dx + dy * dy)
  if d = 0 then 1 else d

/-- The guard `(myPower + otherPower) || 1` of `handlePlayerCollision`. -/
def guardedPower (p : ℚ) : ℚ := if p = 0 then 1 else p

/-- The collision normal of `handlePlayerCollision`: the guarded-normalized
vector from the other car's center to this car's center. -/
def collNormal (P : MathPrims) (a b : CarState) : ℚ × ℚ :=
  let dx := a.x - b.x
  let dy := a.y - b.y
  let dist := guardedDist P dx dy
  (dx / dist, dy / dist)

/-- The attack-power weighting `0.3 + 0.7 * attack` applied to a car's
speed in `handlePlayerCollision`. -/
def attackWeight (attack : ℚ) : ℚ := 0.3 + 0.7 * attack

/-- `myAttack`: how head-on this car moves along the collision normal,
`Math.max(0, -(myFacingX * nx + myFacingY * ny))`. -/
def myAttackOf (P : MathPrims) (a b : CarState) : ℚ :=
  max 0 (-(P.cos a.headAngle * (collNormal P a b).1 +
           P.sin a.headAngle * (collNormal P a b).2))

/-- `otherAttack`: `Math.max(0, otherFacingX * nx + otherFacingY * ny)`. -/
def otherAttackOf (P : MathPrims) (a b : CarState) : ℚ :=
  max 0 (P.cos b.headAngle * (collNormal P a b).1 +
         P.sin b.headAngle * (collNormal P a b).2)

/-- `myPower = mySpeed * (0.3 + 0.7 * myAttack)`. -/
def myPowerOf (P : MathPrims) (a b : CarState) : ℚ :=
  carSpeed P a * attackWeight (myAttackOf P a b)

/-- `otherPower = otherSpeed * (0.3 + 0.7 * otherAttack)`. -/
def otherPowerOf (P : MathPrims) (a b : CarState) : ℚ :=
  carSpeed P b * attackWeight (otherAttackOf P a b)

/-- `totalExtra = extraImpulse + (mySpeed + otherSpeed) * 0.25` with
`extraImpulse = 120`. -/
def totalExtraOf (P : MathPrims) (a b : CarState) : ℚ :=
  120 + (carSpeed P a + carSpeed P b) * 0.25

/-- Shallow embedding of `CarController.handleCollision` (the current
car-vs-obstacle callback): the Arcade engine owns the bounce physics; the
callback only adds a randomly-signed spin (the draw `Math.random()` is the
explicit argument `rnd`) and returns the pre-impact speed for sound. -/
def handleCollision (P : MathPrims) (rnd : ℚ) (s : CarState) : CarState × ℚ :=
  let speedAtImpact := carSpeed P s
  let spin := min (speedAtImpact / 300) 1 * 1.5
  let dir : ℚ := if 0.5 < rnd then 1 else -1
  ({ s with angularVel := s.angularVel + dir * spin }, speedAtImpact)

/-- Shallow embedding of `CarController.handlePlayerCollision` (car vs car,
battle mode): the extra directional impulse on top of the engine bounce,
the spin kicks, and the returned effective impact speed.  The first
component is the updated `this` car, the second the updated other car, the
third the returned speed. -/
def handlePlayerCollision (P : MathPrims) (a b : CarState) :
    CarState × CarState × ℚ :=
  let mySpeed := carSpeed P a
  let otherSpeed := carSpeed P b
  let n := collNormal P a b
  let myFacingX := P.cos a.headAngle
  let myFacingY := P.sin a.headAngle
  let otherFacingX := P.cos b.headAngle
  let otherFacingY := P.sin b.headAngle
  let myPower := myPowerOf P a b
  let otherPower := otherPowerOf P a b
  let totalExtra := totalExtraOf P a b
  let newVels :=
    if otherPower ≤ myPower then
      ((a.vx + n.1 * totalExtra * 0.3, a.vy + n.2 * totalExtra * 0.3),
       (b.vx + -n.1 * totalExtra, b.vy + -n.2 * totalExtra))
    else
      ((a.vx + n.1 * totalExtra, a.vy + n.2 * totalExtra),
       (b.vx + -n.1 * totalExtra * 0.3, b.vy + -n.2 * totalExtra * 0.3))
  let baseSpin : ℚ := 0.6
  let extraSpin : ℚ := 0.8
  let totalPower := guardedPower (myPower + otherPower)
  let myVictimRatio := otherPower / totalPower
  let otherVictimRatio := myPower / totalPower
  let mySpinDir : ℚ := if 0 < n.1 * myFacingY - n.2 * myFacingX then 1 else -1
  let otherSpinDir : ℚ :=
    if 0 < -n.1 * otherFacingY + n.2 * otherFacingX then 1 else -1
  ({ a with vx := newVels.1.1, vy := newVels.1.2,
            angularVel := a.angularVel + mySpinDir * (baseSpin + extraSpin * myVictimRatio) },
   { b with vx := newVels.2.1, vy := newVels.2.2,
            angularVel := b.angularVel + otherSpinDir * (baseSpin + extraSpin * otherVictimRatio) },
   max mySpeed otherSpeed)

-- ==== Legacy obstacle collision (Game_OLD.ts) ====

/-- The state of the legacy single-player car of Game_OLD.ts: sprite
position, Arcade body velocity and the manual forward-speed scalar
`currentSpeed`. -/
structure OldCarState where
  x : ℚ := 0
  y : ℚ := 0
  vx : ℚ := 0
  vy : ℚ := 0
  currentSpeed : ℚ := 0
deriving DecidableEq

/-- `collisionCooldown = 500` ms, Game_OLD.ts. -/
def collisionCooldown : ℚ := 500

/-- The speed-banded bounce force constant of the Game_OLD.ts obstacle
collider: `<75 → 320`, `<175 → 280`, `<275 → 250`, otherwise `230`. -/
def bounceForceFor (speedAtImpact : ℚ) : ℚ :=
  if speedAtImpact < 75 then 320
  else if speedAtImpact < 175 then 280
  else if speedAtImpact < 275 then 250
  else 230

/-- Shallow embedding of the obstacle collider callback of
`Game_OLD.ts` (`Game.create`): after the cooldown check, capture the
pre-impact speed, multiply the forward-speed scalar by 0.2 (the 80 % loss
rule), and when the car-to-obstacle distance is positive overwrite the
body velocity with the banded outward bounce.  The second component is the
impact speed observed for sound selection (`none` when the cooldown
suppressed the collision).  Trick-scoring and sound side effects are not
modelled. -/
def obstacleCollisionOld (P : MathPrims) (now lastCollisionTime : ℚ)
    (s : OldCarState) (obsX obsY : ℚ) : OldCarState × Option ℚ :=
  if now - lastCollisionTime < collisionCooldown then (s, none)
  else
    let speedAtImpact := |s.currentSpeed|
    let newSpeed := s.currentSpeed * 0.2
    let dx := s.x - obsX
    let dy := s.y - obsY
    let distance := P.sqrt (dx * dx + dy * dy)
    if 0 < distance then
      let dirX := dx / distance
      let dirY := dy / distance
      let bounceForce := bounceForceFor speedAtImpact
      ({ s with currentSpeed := newSpeed,
                vx := dirX * bounceForce, vy := dirY * bounceForce },
       some speedAtImpact)
    else
      ({ s with currentSpeed := newSpeed }, some speedAtImpact)

-- ==== Network message dispatch (NetworkManager) ====

/-- The event channels of NetworkManager. -/
inductive NetEvent where
  | input
  | state
  | start
  | lobby
  | scenery
deriving DecidableEq

/-- The `switch (msg.type)` of `NetworkManager.setupConnection`: map a
message type tag to the event it is forwarded to, or `none` for the
`default` branch. -/
def classifyMessage (tag : String) : Option NetEvent :=
  if tag = "input" then some NetEvent.input
  else if tag = "state" then some NetEvent.state
  else if tag = "start" then some NetEvent.start
  else if tag = "lobby" then some NetEvent.lobby
  else if tag = "scenery" then some NetEvent.scenery
  else none

/-- One `conn.on('data')` callback invocation, abstracted over the
registered listeners: a recognized tag runs the listeners of its event on
the game state; an unrecognized tag leaves the state alone and emits a
`console.warn` log line. -/
def onDataStep {σ : Type} (listeners : NetEvent → List (σ → σ)) (tag : String)
    (st : σ) : σ × List String :=
  match classifyMessage tag with
  | some e => ((listeners e).foldl (fun s f => f s) st, [])
  | none => (st, ["[Net] Unknown message type"])

-- ==== Concrete instantiation of the math primitives ====

/-- A concrete square-root table: agrees with `Math.sqrt` at every point
where a concrete theorem below evaluates the model (all of them perfect
squares); other inputs are irrelevant to those evaluations. -/
def csqrt (q : ℚ) : ℚ :=
  if q = 0 then 0
  else if q = 1 then 1
  else if q = 25 then 5
  else if q = 100 then 10
  else if q = 900 then 30
  else if q = 10000 then 100
  else if q = 96100 then 310
  else if q = 102400 then 320
  else 0

/-- A concrete exponential: agrees with `Math.exp` at `0` (the only point
where the concrete theorems below depend on its value; the value at the
large negative arguments that occur is irrelevant to their conclusions). -/
def cexp (q : ℚ) : ℚ := if q = 0 then 1 else 0

/-- A concrete cosine: agrees with `Math.cos` at `0` (the only heading
used where its value matters in the concrete theorems below). -/
def ccos (q : ℚ) : ℚ := if q = 0 then 1 else 0

/-- A concrete sine: agrees with `Math.sin` at `0`. -/
def csin (_ : ℚ) : ℚ := 0

/-- A concrete `atan2`: agrees with `Math.atan2` at `(0, x)` for `x ≥ 0`,
the only arguments occurring in the concrete theorems below. -/
def catan2 (_ _ : ℚ) : ℚ := 0

/-- The concrete math primitives used for sample-point evaluations. -/
def cprims : MathPrims :=
  { sqrt := csqrt, exp := cexp, cos := ccos, sin := csin, atan2 := catan2 }

/-- A sample in-range car state used to instantiate the dt = 0 theorems. -/
def c1Car : CarState := { x := 100, y := 100, angularVel := 1, boostFuel := 1 }

-- ==================================================================
--  Theorems
-- ==================================================================

-- ---- wrap-loop helpers ----

theorem wrapDown_eq_self {q : ℚ} (h : ¬ mPI < q) : wrapDown q = q := by
  rw [wrapDown]
  exact dif_neg h

theorem wrapUp_eq_self {q : ℚ} (h : ¬ q < -mPI) : wrapUp q = q := by
  rw [wrapUp]
  exact dif_neg h

theorem wrapPi_eq_self {q : ℚ} (h1 : ¬ mPI < q) (h2 : ¬ q < -mPI) :
    wrapPi q = q := by
  rw [wrapPi, wrapDown_eq_self h1, wrapUp_eq_self h2]

theorem wrapPi_zero : wrapPi 0 = 0 :=
  wrapPi_eq_self (by norm_num [mPI]) (by norm_num [mPI])

theorem wrapDown_le (q : ℚ) : wrapDown q ≤ mPI := by
  induction q using wrapDown.induct with
  | case1 q h ih =>
    rw [wrapDown, dif_pos h]
    exact ih
  | case2 q h =>
    rw [wrapDown, dif_neg h]
    exact le_of_not_lt h

theorem wrapUp_ge (q : ℚ) : -mPI ≤ wrapUp q := by
  induction q using wrapUp.induct with
  | case1 q h ih =>
    rw [wrapUp, dif_pos h]
    exact ih
  | case2 q h =>
    rw [wrapUp, dif_neg h]
    exact le_of_not_lt h

theorem wrapUp_le (q : ℚ) (hq : q ≤ mPI) : wrapUp q ≤ mPI := by
  induction q using wrapUp.induct with
  | case1 q h ih =>
    rw [wrapUp, dif_pos h]
    have hpi : (0 : ℚ) < mPI := by norm_num [mPI]
    exact ih (by linarith)
  | case2 q h =>
    rw [wrapUp, dif_neg h]
    exact hq

-- ---- field lemmas for updateForward ----

theorem updateForward_x (P : MathPrims) (w h : ℚ) (s : CarState)
    (input : CarInput) (dt : ℚ) :
    (updateForward P w h s input dt).x = torusWrap w (edgeWrap w s.x) := rfl

theorem updateForward_y (P : MathPrims) (w h : ℚ) (s : CarState)
    (input : CarInput) (dt : ℚ) :
    (updateForward P w h s input dt).y = torusWrap h (edgeWrap h s.y) := rfl

theorem updateForward_vx (P : MathPrims) (w h : ℚ) (s : CarState)
    (input : CarInput) (dt : ℚ) :
    (updateForward P w h s input dt).vx = (grippedVel P s input dt).1 := rfl

theorem updateForward_vy (P : MathPrims) (w h : ℚ) (s : CarState)
    (input : CarInput) (dt : ℚ) :
    (updateForward P w h s input dt).vy = (grippedVel P s input dt).2 := rfl

theorem updateForward_headAngle (P : MathPrims) (w h : ℚ) (s : CarState)
    (input : CarInput) (dt : ℚ) :
    (updateForward P w h s input dt).headAngle
      = s.headAngle + steeredAngularVel P s input dt * dt := rfl

theorem updateForward_angularVel (P : MathPrims) (w h : ℚ) (s : CarState)
    (input : CarInput) (dt : ℚ) :
    (updateForward P w h s input dt).angularVel
      = steeredAngularVel P s input dt * 0.95 := rfl

theorem updateForward_boostFuel (P : MathPrims) (w h : ℚ) (s : CarState)
    (input : CarInput) (dt : ℚ) :
    (updateForward P w h s input dt).boostFuel
      = (boostPairOf s input dt).2 := rfl

theorem updateForward_boostIntensity (P : MathPrims) (w h : ℚ) (s : CarState)
    (input : CarInput) (dt : ℚ) :
    (updateForward P w h s input dt).boostIntensity
      = (boostPairOf s input dt).1 := rfl

theorem updateForward_tireMarkIntensity (P : MathPrims) (w h : ℚ)
    (s : CarState) (input : CarInput) (dt : ℚ) :
    (updateForward P w h s input dt).tireMarkIntensity
      = tireMarkNext P s input dt := rfl

-- ---- C9: unrecognized message tags are logged and ignored ----

/-- C9: for every incoming network message whose type tag is not one of
`input`, `state`, `start`, `lobby`, `scenery`, the `conn.on('data')`
handler hits the `default` branch: the message is classified to no event,
no listener is invoked, the game state is unchanged, and the only effect
is the `console.warn` log line — the handler returns normally, so the tick
loop is not interrupted. -/
theorem unknown_tag_logged_and_ignored {σ : Type}
    (listeners : NetEvent → List (σ → σ)) (tag : String) (st : σ)
    (h : tag ∉ (["input", "state", "start", "lobby", "scenery"] : List String)) :
    classifyMessage tag = none ∧
    onDataStep listeners tag st = (st, ["[Net] Unknown message type"]) := by
  simp only [List.mem_cons, List.not_mem_nil, or_false, not_or] at h
  obtain ⟨h1, h2, h3, h4, h5⟩ := h
  have hc : classifyMessage tag = none := by
    simp [classifyMessage, h1, h2, h3, h4, h5]
  exact ⟨hc, by simp [onDataStep, hc]⟩

theorem unknown_tag_logged_and_ignored_witness :
    classifyMessage "bogus" = none ∧
    onDataStep (fun _ => ([] : List (ℕ → ℕ))) "bogus" (0 : ℕ) =
      (0, ["[Net] Unknown message type"]) :=
  unknown_tag_logged_and_ignored (fun _ => []) "bogus" 0 (by decide)

-- ---- C10: exact wrap at the toroidal boundary ----

/-- C10: a car at rest whose position is exactly `(width, height)` is
wrapped to `(0, 0)` by the end-of-update wrap (the manual edge checks of
`updateForward` leave an exactly-on-bound coordinate alone, and the engine
wrap — modelled from the spec as the toroidal wrap `torusWrap` — maps it
to `0`); its velocity is unchanged. -/
theorem wrap_exact_at_bounds (P : MathPrims) (width height : ℚ)
    (s : CarState) (input : CarInput) (dt : ℚ)
    (hw : 0 < width) (hh : 0 < height)
    (hx : s.x = width) (hy : s.y = height)
    (hvx : s.vx = 0) (hvy : s.vy = 0) (hs : P.sqrt 0 = 0) :
    (updateForward P width height s input dt).x = 0 ∧
    (updateForward P width height s input dt).y = 0 ∧
    (updateForward P width height s input dt).vx = 0 ∧
    (updateForward P width height s input dt).vy = 0 := by
  have hsp : carSpeed P s = 0 := by
    rw [carSpeed, hvx, hvy]
    norm_num [hs]
  have hns : ¬ (1 : ℚ) < carSpeed P s := by
    rw [hsp]
    norm_num
  have hwrapx : torusWrap width (edgeWrap width s.x) = 0 := by
    rw [hx, edgeWrap, if_neg (not_lt.mpr hw.le), if_neg (lt_irrefl width),
      torusWrap, div_self hw.ne']
    norm_num
  have hwrapy : torusWrap height (edgeWrap height s.y) = 0 := by
    rw [hy, edgeWrap, if_neg (not_lt.mpr hh.le), if_neg (lt_irrefl height),
      torusWrap, div_self hh.ne']
    norm_num
  have hgv : grippedVel P s input dt = (s.vx, s.vy) := by
    rw [grippedVel, if_neg hns]
  refine ⟨?_, ?_, ?_, ?_⟩
  · rw [updateForward_x, hwrapx]
  · rw [updateForward_y, hwrapy]
  · rw [updateForward_vx, hgv]
    exact hvx
  · rw [updateForward_vy, hgv]
    exact hvy

theorem wrap_exact_at_bounds_witness :
    (updateForward cprims 1920 1080 { x := 1920, y := 1080 } {} (1/60)).x = 0 ∧
    (updateForward cprims 1920 1080 { x := 1920, y := 1080 } {} (1/60)).y = 0 ∧
    (updateForward cprims 1920 1080 { x := 1920, y := 1080 } {} (1/60)).vx = 0 ∧
    (updateForward cprims 1920 1080 { x := 1920, y := 1080 } {} (1/60)).vy = 0 :=
  wrap_exact_at_bounds cprims 1920 1080 _ _ _ (by norm_num) (by norm_num)
    rfl rfl rfl rfl (by norm_num [cprims, csqrt])

-- ---- C3: boost fuel stays in [0, boostMax] ----

theorem updateForward_boostFuel_bounds (P : MathPrims) (w h : ℚ)
    (s : CarState) (input : CarInput) (dt : ℚ)
    (hdt : 0 ≤ dt) (h0 : 0 ≤ s.boostFuel) :
    0 ≤ (updateForward P w h s input dt).boostFuel ∧
    (updateForward P w h s input dt).boostFuel ≤ s.boostFuel := by
  have hdrain : 0 ≤ boostDrainRate * dt := by
    have : (0 : ℚ) ≤ boostDrainRate := by norm_num [boostDrainRate]
    positivity
  rw [updateForward_boostFuel, boostPairOf]
  by_cases hb : (input.thrustInput = true) ∧ 0 < s.boostFuel ∧ ¬ input.brakeInput = true
  · rw [if_pos hb]
    exact ⟨le_max_left _ _, max_le h0 (by linarith)⟩
  · rw [if_neg hb]
    exact ⟨h0, le_refl _⟩

theorem boostStep_bounds (P : MathPrims) (w h : ℚ) (s : CarState) (e : BoostEv)
    (hdt : 0 ≤ dtOf e) (h0 : 0 ≤ s.boostFuel) (h1 : s.boostFuel ≤ boostMax) :
    0 ≤ (boostStep P w h s e).boostFuel ∧
    (boostStep P w h s e).boostFuel ≤ boostMax := by
  cases e with
  | tick input dt =>
    have := updateForward_boostFuel_bounds P w h s input dt hdt h0
    exact ⟨this.1, le_trans this.2 h1⟩
  | pickup =>
    refine ⟨le_min ?_ ?_, min_le_left _ _⟩
    · norm_num [boostMax]
    · have : (0 : ℚ) ≤ boostRefillAmount := by norm_num [boostRefillAmount]
      linarith

theorem runBoostEvents_bounds (P : MathPrims) (w h : ℚ) (l : List BoostEv)
    (s : CarState) (hl : ∀ e ∈ l, 0 ≤ dtOf e)
    (h0 : 0 ≤ s.boostFuel) (h1 : s.boostFuel ≤ boostMax) :
    0 ≤ (runBoostEvents P w h l s).boostFuel ∧
    (runBoostEvents P w h l s).boostFuel ≤ boostMax := by
  induction l generalizing s with
  | nil => exact ⟨h0, h1⟩
  | cons e t ih =>
    have hstep := boostStep_bounds P w h s e (hl e (by simp)) h0 h1
    exact ih _ (fun x hx => hl x (by simp [hx])) hstep.1 hstep.2

/-- C3: boost fuel never leaves `[0, boostMax]`.  One forward update with
`dt ≥ 0` keeps fuel in range and never increases it (holding boost drains
monotonically, clamped at 0); a pickup refill never decreases it and is
clamped at `boostMax`; and any sequence of ticks and pickups started in
range stays in range. -/
theorem boost_fuel_invariant (P : MathPrims) (w h : ℚ) (s : CarState)
    (input : CarInput) (dt : ℚ)
    (hdt : 0 ≤ dt) (h0 : 0 ≤ s.boostFuel) (h1 : s.boostFuel ≤ boostMax) :
    (0 ≤ (updateForward P w h s input dt).boostFuel ∧
     (updateForward P w h s input dt).boostFuel ≤ boostMax ∧
     (updateForward P w h s input dt).boostFuel ≤ s.boostFuel) ∧
    (s.boostFuel ≤ pickupRefill s.boostFuel ∧
     pickupRefill s.boostFuel ≤ boostMax) ∧
    (∀ l : List BoostEv, (∀ e ∈ l, 0 ≤ dtOf e) →
      0 ≤ (runBoostEvents P w h l s).boostFuel ∧
      (runBoostEvents P w h l s).boostFuel ≤ boostMax) := by
  have hstep := updateForward_boostFuel_bounds P w h s input dt hdt h0
  refine ⟨⟨hstep.1, le_trans hstep.2 h1, hstep.2⟩, ⟨?_, min_le_left _ _⟩, ?_⟩
  · refine le_min h1 ?_
    have : (0 : ℚ) ≤ boostRefillAmount := by norm_num [boostRefillAmount]
    linarith
  · exact fun l hl => runBoostEvents_bounds P w h l s hl h0 h1

theorem boost_fuel_invariant_witness :
    (0 ≤ (updateForward cprims 1920 1080 { boostFuel := boostMax }
            { thrustInput := true } (1/60)).boostFuel ∧
     (updateForward cprims 1920 1080 { boostFuel := boostMax }
            { thrustInput := true } (1/60)).boostFuel ≤ boostMax ∧
     (updateForward cprims 1920 1080 { boostFuel := boostMax }
            { thrustInput := true } (1/60)).boostFuel ≤
       ({ boostFuel := boostMax } : CarState).boostFuel) ∧
    (({ boostFuel := boostMax } : CarState).boostFuel ≤
       pickupRefill ({ boostFuel := boostMax } : CarState).boostFuel ∧
     pickupRefill ({ boostFuel := boostMax } : CarState).boostFuel ≤ boostMax) ∧
    (∀ l : List BoostEv, (∀ e ∈ l, 0 ≤ dtOf e) →
      0 ≤ (runBoostEvents cprims 1920 1080 l { boostFuel := boostMax }).boostFuel ∧
      (runBoostEvents cprims 1920 1080 l { boostFuel := boostMax }).boostFuel ≤ boostMax) :=
  boost_fuel_invariant cprims 1920 1080 _ _ _ (by norm_num) (by norm_num [boostMax])
    (by norm_num [boostMax])

-- ---- C4: boost ramp (amended: ramp-up is the faster rate) ----

/-- C4 (amended): on a tick with `dt > 0`, if boost is requested, fuel is
positive and the brake is not held, boost intensity ramps toward 1 at rate
`boostRampUp` and fuel strictly drains; otherwise intensity ramps toward 0
at rate `boostRampDown` and fuel is unchanged.  The two rates differ, but
the ramp-down rate (3.5/s) is SLOWER than the ramp-up rate (5/s) — the
opposite of the spec's "faster down than up". -/
theorem boost_ramp (P : MathPrims) (w h : ℚ) (s : CarState)
    (input : CarInput) (dt : ℚ)
    (hdt : 0 < dt) (hbi0 : 0 ≤ s.boostIntensity) (hbi1 : s.boostIntensity ≤ 1) :
    ((input.thrustInput ∧ 0 < s.boostFuel ∧ ¬ input.brakeInput) →
      (updateForward P w h s input dt).boostIntensity
          = min 1 (s.boostIntensity + boostRampUp * dt) ∧
      s.boostIntensity ≤ (updateForward P w h s input dt).boostIntensity ∧
      (updateForward P w h s input dt).boostFuel
          = max 0 (s.boostFuel - boostDrainRate * dt) ∧
      (updateForward P w h s input dt).boostFuel < s.boostFuel) ∧
    (¬ (input.thrustInput ∧ 0 < s.boostFuel ∧ ¬ input.brakeInput) →
      (updateForward P w h s input dt).boostIntensity
          = max 0 (s.boostIntensity - boostRampDown * dt) ∧
      (updateForward P w h s input dt).boostIntensity ≤ s.boostIntensity ∧
      (updateForward P w h s input dt).boostFuel = s.boostFuel) ∧
    boostRampDown < boostRampUp := by
  have hup : 0 < boostRampUp * dt := by
    have : (0 : ℚ) < boostRampUp := by norm_num [boostRampUp]
    positivity
  have hdn : 0 < boostRampDown * dt := by
    have : (0 : ℚ) < boostRampDown := by norm_num [boostRampDown]
    positivity
  have hdr : 0 < boostDrainRate * dt := by
    have : (0 : ℚ) < boostDrainRate := by norm_num [boostDrainRate]
    positivity
  refine ⟨fun hb => ?_, fun hb => ?_, by norm_num [boostRampDown, boostRampUp]⟩
  · rw [updateForward_boostIntensity, updateForward_boostFuel,
      boostPairOf, if_pos hb]
    refine ⟨rfl, le_min hbi1 (by linarith), rfl, ?_⟩
    exact max_lt hb.2.1 (by linarith)
  · rw [updateForward_boostIntensity, updateForward_boostFuel,
      boostPairOf, if_neg hb]
    exact ⟨rfl, max_le hbi0 (by linarith), rfl⟩

theorem boost_ramp_witness :
    ((({ thrustInput := true } : CarInput).thrustInput ∧
      0 < ({ boostFuel := boostMax } : CarState).boostFuel ∧
      ¬ ({ thrustInput := true } : CarInput).brakeInput) →
      (updateForward cprims 1920 1080 { boostFuel := boostMax }
          { thrustInput := true } (1/60)).boostIntensity
        = min 1 (({ boostFuel := boostMax } : CarState).boostIntensity + boostRampUp * (1/60)) ∧
      ({ boostFuel := boostMax } : CarState).boostIntensity ≤
        (updateForward cprims 1920 1080 { boostFuel := boostMax }
          { thrustInput := true } (1/60)).boostIntensity ∧
      (updateForward cprims 1920 1080 { boostFuel := boostMax }
          { thrustInput := true } (1/60)).boostFuel
        = max 0 (({ boostFuel := boostMax } : CarState).boostFuel - boostDrainRate * (1/60)) ∧
      (updateForward cprims 1920 1080 { boostFuel := boostMax }
          { thrustInput := true } (1/60)).boostFuel
        < ({ boostFuel := boostMax } : CarState).boostFuel) ∧
    (¬ (({ thrustInput := true } : CarInput).thrustInput ∧
        0 < ({ boostFuel := boostMax } : CarState).boostFuel ∧
        ¬ ({ thrustInput := true } : CarInput).brakeInput) →
      (updateForward cprims 1920 1080 { boostFuel := boostMax }
          { thrustInput := true } (1/60)).boostIntensity
        = max 0 (({ boostFuel := boostMax } : CarState).boostIntensity - boostRampDown * (1/60)) ∧
      (updateForward cprims 1920 1080 { boostFuel := boostMax }
          { thrustInput := true } (1/60)).boostIntensity ≤
        ({ boostFuel := boostMax } : CarState).boostIntensity ∧
      (updateForward cprims 1920 1080 { boostFuel := boostMax }
          { thrustInput := true } (1/60)).boostFuel
        = ({ boostFuel := boostMax } : CarState).boostFuel) ∧
    boostRampDown < boostRampUp :=
  boost_ramp cprims 1920 1080 _ _ _ (by norm_num) (by norm_num) (by norm_num)

/-- C4 counterexample: the claim's "ramp-down rate is faster than the
ramp-up rate" is false.  The constants are `boostRampUp = 5` and
`boostRampDown = 3.5`, and concretely a 0.1 s boosting tick raises
intensity from 0 to 0.5 while a 0.1 s idle tick only lowers it from 1 to
0.65 — the downward step (0.35) is smaller than the upward step (0.5). -/
theorem boost_ramp_rates_cex :
    boostRampDown < boostRampUp ∧
    (updateForward cprims 1920 1080 { boostFuel := boostMax }
        { thrustInput := true } (1/10)).boostIntensity = 1/2 ∧
    (updateForward cprims 1920 1080 { boostIntensity := 1 } {} (1/10)).boostIntensity
      = 13/20 ∧
    (1 : ℚ) - 13/20 < 1/2 - 0 := by
  refine ⟨by norm_num [boostRampDown, boostRampUp], ?_, ?_, by norm_num⟩
  · rw [updateForward_boostIntensity]
    norm_num [boostPairOf, boostMax, boostRampUp]
  · rw [updateForward_boostIntensity]
    norm_num [boostPairOf, boostRampDown]

-- ---- C6: banded outward bounce of the legacy obstacle collider ----

/-- C6: in the Game_OLD obstacle collider, once the cooldown has elapsed
and the car-to-obstacle distance is positive, the bounce magnitude is the
band constant `bounceForceFor` of the pre-impact speed (`<75 → 320`,
`75–175 → 280`, `175–275 → 250`, `≥275 → 230`, strictly decreasing by
band), the post-impact body velocity is that constant times the normalized
vector from the obstacle center to the car center, its squared magnitude
is the squared band constant, and a speed-50 impact uses the low-band
constant 320. -/
theorem obstacle_bounce_bands (P : MathPrims) (now last obsX obsY : ℚ)
    (s : OldCarState) (d : ℚ)
    (hcool : ¬ now - last < collisionCooldown)
    (hd : P.sqrt ((s.x - obsX) * (s.x - obsX) + (s.y - obsY) * (s.y - obsY)) = d)
    (hd2 : d * d = (s.x - obsX) * (s.x - obsX) + (s.y - obsY) * (s.y - obsY))
    (hdpos : 0 < d) :
    (∀ v : ℚ, v < 75 → bounceForceFor v = 320) ∧
    (∀ v : ℚ, 75 ≤ v → v < 175 → bounceForceFor v = 280) ∧
    (∀ v : ℚ, 175 ≤ v → v < 275 → bounceForceFor v = 250) ∧
    (∀ v : ℚ, 275 ≤ v → bounceForceFor v = 230) ∧
    ((230 : ℚ) < 250 ∧ (250 : ℚ) < 280 ∧ (280 : ℚ) < 320) ∧
    bounceForceFor 50 = 320 ∧
    (obstacleCollisionOld P now last s obsX obsY).1.vx
        = (s.x - obsX) / d * bounceForceFor |s.currentSpeed| ∧
    (obstacleCollisionOld P now last s obsX obsY).1.vy
        = (s.y - obsY) / d * bounceForceFor |s.currentSpeed| ∧
    (obstacleCollisionOld P now last s obsX obsY).1.vx *
        (obstacleCollisionOld P now last s obsX obsY).1.vx +
      (obstacleCollisionOld P now last s obsX obsY).1.vy *
        (obstacleCollisionOld P now last s obsX obsY).1.vy
        = bounceForceFor |s.currentSpeed| * bounceForceFor |s.currentSpeed| := by
  have hres : obstacleCollisionOld P now last s obsX obsY
      = ({ s with
             currentSpeed := s.currentSpeed * 0.2,
             vx := (s.x - obsX) / d * bounceForceFor (abs s.currentSpeed),
             vy := (s.y - obsY) / d * bounceForceFor (abs s.currentSpeed) },
         some (abs s.currentSpeed)) := by
    simp only [obstacleCollisionOld, if_neg hcool, hd, if_pos hdpos]
  refine ⟨?_, ?_, ?_, ?_, by norm_num, by norm_num [bounceForceFor], ?_, ?_, ?_⟩
  · intro v hv
    rw [bounceForceFor, if_pos hv]
  · intro v hv1 hv2
    rw [bounceForceFor, if_neg (not_lt.mpr hv1), if_pos hv2]
  · intro v hv1 hv2
    rw [bounceForceFor, if_neg (by linarith : ¬ v < 75),
      if_neg (not_lt.mpr hv1), if_pos hv2]
  · intro v hv1
    rw [bounceForceFor, if_neg (by linarith : ¬ v < 75),
      if_neg (by linarith : ¬ v < 175), if_neg (not_lt.mpr hv1)]
  · rw [hres]
  · rw [hres]
  · have hexpand : (s.x - obsX) / d * bounceForceFor (abs s.currentSpeed) *
        ((s.x - obsX) / d * bounceForceFor (abs s.currentSpeed)) +
        (s.y - obsY) / d * bounceForceFor (abs s.currentSpeed) *
        ((s.y - obsY) / d * bounceForceFor (abs s.currentSpeed))
        = ((s.x - obsX) * (s.x - obsX) + (s.y - obsY) * (s.y - obsY)) / (d * d) *
          (bounceForceFor (abs s.currentSpeed) * bounceForceFor (abs s.currentSpeed)) := by
      field_simp
      ring
    rw [hres]
    dsimp only
    rw [hexpand, ← hd2, div_self (mul_pos hdpos hdpos).ne', one_mul]

theorem obstacle_bounce_bands_witness :
    ((∀ v : ℚ, v < 75 → bounceForceFor v = 320) ∧
     (∀ v : ℚ, 75 ≤ v → v < 175 → bounceForceFor v = 280) ∧
     (∀ v : ℚ, 175 ≤ v → v < 275 → bounceForceFor v = 250) ∧
     (∀ v : ℚ, 275 ≤ v → bounceForceFor v = 230) ∧
     ((230 : ℚ) < 250 ∧ (250 : ℚ) < 280 ∧ (280 : ℚ) < 320) ∧
     bounceForceFor 50 = 320 ∧
     (obstacleCollisionOld cprims 1000 0
        { x := 100, y := 100, currentSpeed := 50 } 97 96).1.vx
       = (100 - 97) / 5 * bounceForceFor |(50 : ℚ)| ∧
     (obstacleCollisionOld cprims 1000 0
        { x := 100, y := 100, currentSpeed := 50 } 97 96).1.vy
       = (100 - 96) / 5 * bounceForceFor |(50 : ℚ)| ∧
     (obstacleCollisionOld cprims 1000 0
        { x := 100, y := 100, currentSpeed := 50 } 97 96).1.vx *
        (obstacleCollisionOld cprims 1000 0
          { x := 100, y := 100, currentSpeed := 50 } 97 96).1.vx +
       (obstacleCollisionOld cprims 1000 0
          { x := 100, y := 100, currentSpeed := 50 } 97 96).1.vy *
        (obstacleCollisionOld cprims 1000 0
          { x := 100, y := 100, currentSpeed := 50 } 97 96).1.vy
       = bounceForceFor |(50 : ℚ)| * bounceForceFor |(50 : ℚ)|) :=
  obstacle_bounce_bands cprims 1000 0 97 96
    { x := 100, y := 100, currentSpeed := 50 } 5
    (by norm_num [collisionCooldown])
    (by norm_num [cprims, csqrt]) (by norm_num) (by norm_num)

-- ---- C7: car-vs-car aggressor resolution ----

/-- C7: in `handlePlayerCollision`, each car's attack power is its speed
times the weighting `0.3 + 0.7 · attack` (monotone in how head-on the car
moves along the collision normal); when this car's power strictly exceeds
the other's, the victim receives the full extra impulse `totalExtra`
along the normal away from the aggressor while the aggressor receives
only the 0.3 reactive fraction; and the resolver returns the maximum of
the two pre-collision speeds. -/
theorem player_collision_aggressor (P : MathPrims) (a b : CarState)
    (h : otherPowerOf P a b < myPowerOf P a b) :
    myPowerOf P a b = carSpeed P a * (0.3 + 0.7 * myAttackOf P a b) ∧
    otherPowerOf P a b = carSpeed P b * (0.3 + 0.7 * otherAttackOf P a b) ∧
    (∀ w1 w2 : ℚ, w1 ≤ w2 → attackWeight w1 ≤ attackWeight w2) ∧
    (handlePlayerCollision P a b).2.1.vx
        = b.vx - (collNormal P a b).1 * totalExtraOf P a b ∧
    (handlePlayerCollision P a b).2.1.vy
        = b.vy - (collNormal P a b).2 * totalExtraOf P a b ∧
    (handlePlayerCollision P a b).1.vx
        = a.vx + (collNormal P a b).1 * totalExtraOf P a b * 0.3 ∧
    (handlePlayerCollision P a b).1.vy
        = a.vy + (collNormal P a b).2 * totalExtraOf P a b * 0.3 ∧
    (handlePlayerCollision P a b).2.2 = max (carSpeed P a) (carSpeed P b) := by
  refine ⟨rfl, rfl, ?_, ?_, ?_, ?_, ?_, rfl⟩
  · intro w1 w2 hw
    rw [attackWeight, attackWeight]
    linarith
  all_goals
    simp only [handlePlayerCollision, if_pos h.le]
    try ring

theorem player_collision_aggressor_witness :
    (myPowerOf cprims { x := 10, vx := 30 } {}
        = carSpeed cprims { x := 10, vx := 30 } *
            (0.3 + 0.7 * myAttackOf cprims { x := 10, vx := 30 } {}) ∧
     otherPowerOf cprims { x := 10, vx := 30 } {}
        = carSpeed cprims {} *
            (0.3 + 0.7 * otherAttackOf cprims { x := 10, vx := 30 } {}) ∧
     (∀ w1 w2 : ℚ, w1 ≤ w2 → attackWeight w1 ≤ attackWeight w2) ∧
     (handlePlayerCollision cprims { x := 10, vx := 30 } {}).2.1.vx
        = ({} : CarState).vx -
            (collNormal cprims { x := 10, vx := 30 } {}).1 *
              totalExtraOf cprims { x := 10, vx := 30 } {} ∧
     (handlePlayerCollision cprims { x := 10, vx := 30 } {}).2.1.vy
        = ({} : CarState).vy -
            (collNormal cprims { x := 10, vx := 30 } {}).2 *
              totalExtraOf cprims { x := 10, vx := 30 } {} ∧
     (handlePlayerCollision cprims { x := 10, vx := 30 } {}).1.vx
        = ({ x := 10, vx := 30 } : CarState).vx +
            (collNormal cprims { x := 10, vx := 30 } {}).1 *
              totalExtraOf cprims { x := 10, vx := 30 } {} * 0.3 ∧
     (handlePlayerCollision cprims { x := 10, vx := 30 } {}).1.vy
        = ({ x := 10, vx := 30 } : CarState).vy +
            (collNormal cprims { x := 10, vx := 30 } {}).2 *
              totalExtraOf cprims { x := 10, vx := 30 } {} * 0.3 ∧
     (handlePlayerCollision cprims { x := 10, vx := 30 } {}).2.2
        = max (carSpeed cprims { x := 10, vx := 30 }) (carSpeed cprims {})) := by
  refine player_collision_aggressor cprims { x := 10, vx := 30 } {} ?_
  norm_num [myPowerOf, otherPowerOf, carSpeed, attackWeight, myAttackOf,
    otherAttackOf, collNormal, guardedDist, cprims, csqrt, ccos, csin]

-- ---- C8: coincident-center car collision is guarded ----

/-- C8: when the two cars' centers exactly coincide, `handlePlayerCollision`
divides by no zero: the `|| 1` guard turns the zero distance into 1 (so
the collision normal is the zero vector, not NaN) and the `|| 1` guard on
the summed attack power keeps the spin-ratio divisor nonzero.  Positions
and velocities of both cars come out unchanged, and both angular
velocities change by the explicit finite spin kicks. -/
theorem coincident_collision_guarded (P : MathPrims) (a b : CarState)
    (hx : a.x = b.x) (hy : a.y = b.y) (hs0 : P.sqrt 0 = 0) :
    guardedDist P (a.x - b.x) (a.y - b.y) = 1 ∧
    guardedPower (myPowerOf P a b + otherPowerOf P a b) ≠ 0 ∧
    collNormal P a b = (0, 0) ∧
    (handlePlayerCollision P a b).1.x = a.x ∧
    (handlePlayerCollision P a b).1.y = a.y ∧
    (handlePlayerCollision P a b).2.1.x = b.x ∧
    (handlePlayerCollision P a b).2.1.y = b.y ∧
    (handlePlayerCollision P a b).1.vx = a.vx ∧
    (handlePlayerCollision P a b).1.vy = a.vy ∧
    (handlePlayerCollision P a b).2.1.vx = b.vx ∧
    (handlePlayerCollision P a b).2.1.vy = b.vy ∧
    (handlePlayerCollision P a b).1.angularVel
        = a.angularVel - (0.6 + 0.8 * (otherPowerOf P a b /
            guardedPower (myPowerOf P a b + otherPowerOf P a b))) ∧
    (handlePlayerCollision P a b).2.1.angularVel
        = b.angularVel - (0.6 + 0.8 * (myPowerOf P a b /
            guardedPower (myPowerOf P a b + otherPowerOf P a b))) := by
  have hdx : a.x - b.x = 0 := by rw [hx, sub_self]
  have hdy : a.y - b.y = 0 := by rw [hy, sub_self]
  have hgd : guardedDist P (a.x - b.x) (a.y - b.y) = 1 := by
    rw [guardedDist, hdx, hdy]
    norm_num [hs0]
  have hgp : guardedPower (myPowerOf P a b + otherPowerOf P a b) ≠ 0 := by
    rw [guardedPower]
    split_ifs with hz
    · norm_num
    · exact hz
  have hn : collNormal P a b = (0, 0) := by
    rw [collNormal]
    simp only [hgd, hdx, hdy]
    norm_num
  refine ⟨hgd, hgp, hn, ?_, ?_, ?_, ?_, ?_, ?_, ?_, ?_, ?_, ?_⟩
  all_goals simp only [handlePlayerCollision, hn, zero_mul, neg_zero,
    sub_self, lt_self_iff_false, ite_false, mul_zero, add_zero, sub_zero]
  all_goals try split_ifs
  all_goals try ring

theorem coincident_collision_guarded_witness :
    (guardedDist cprims (({} : CarState).x - ({} : CarState).x)
        (({} : CarState).y - ({} : CarState).y) = 1 ∧
     guardedPower (myPowerOf cprims {} {} + otherPowerOf cprims {} {}) ≠ 0 ∧
     collNormal cprims {} {} = (0, 0) ∧
     (handlePlayerCollision cprims {} {}).1.x = ({} : CarState).x ∧
     (handlePlayerCollision cprims {} {}).1.y = ({} : CarState).y ∧
     (handlePlayerCollision cprims {} {}).2.1.x = ({} : CarState).x ∧
     (handlePlayerCollision cprims {} {}).2.1.y = ({} : CarState).y ∧
     (handlePlayerCollision cprims {} {}).1.vx = ({} : CarState).vx ∧
     (handlePlayerCollision cprims {} {}).1.vy = ({} : CarState).vy ∧
     (handlePlayerCollision cprims {} {}).2.1.vx = ({} : CarState).vx ∧
     (handlePlayerCollision cprims {} {}).2.1.vy = ({} : CarState).vy ∧
     (handlePlayerCollision cprims {} {}).1.angularVel
        = ({} : CarState).angularVel - (0.6 + 0.8 * (otherPowerOf cprims {} {} /
            guardedPower (myPowerOf cprims {} {} + otherPowerOf cprims {} {}))) ∧
     (handlePlayerCollision cprims {} {}).2.1.angularVel
        = ({} : CarState).angularVel - (0.6 + 0.8 * (myPowerOf cprims {} {} /
            guardedPower (myPowerOf cprims {} {} + otherPowerOf cprims {} {})))) :=
  coincident_collision_guarded cprims {} {} rfl rfl (by norm_num [cprims, csqrt])

-- ---- C5: 20 % post-impact speed — legacy only, current resolver random ----

/-- C5 (amended): the 20 % rule lives only in the legacy Game_OLD obstacle
collider: once the cooldown has elapsed it always sets the forward-speed
scalar to `0.2` times its pre-impact value (an 80 % loss), reports the
pre-impact magnitude, and — being a function of its explicit inputs with
no random draw — is deterministic.  (The current resolver
`CarController.handleCollision` does neither; see the counterexample.) -/
theorem obstacle_speed_loss_legacy (P : MathPrims) (now last obsX obsY : ℚ)
    (s : OldCarState) (hcool : ¬ now - last < collisionCooldown) :
    (obstacleCollisionOld P now last s obsX obsY).1.currentSpeed
        = 0.2 * s.currentSpeed ∧
    |(obstacleCollisionOld P now last s obsX obsY).1.currentSpeed|
        = 0.2 * |s.currentSpeed| ∧
    (obstacleCollisionOld P now last s obsX obsY).2 = some |s.currentSpeed| := by
  simp only [obstacleCollisionOld, if_neg hcool]
  split_ifs
  all_goals refine ⟨by ring, ?_, rfl⟩
  all_goals
    rw [abs_mul]
    norm_num [mul_comm]

theorem obstacle_speed_loss_legacy_witness :
    (obstacleCollisionOld cprims 1000 0 { currentSpeed := 50 } 97 96).1.currentSpeed
        = 0.2 * ({ currentSpeed := 50 } : OldCarState).currentSpeed ∧
    |(obstacleCollisionOld cprims 1000 0 { currentSpeed := 50 } 97 96).1.currentSpeed|
        = 0.2 * |({ currentSpeed := 50 } : OldCarState).currentSpeed| ∧
    (obstacleCollisionOld cprims 1000 0 { currentSpeed := 50 } 97 96).2
        = some |({ currentSpeed := 50 } : OldCarState).currentSpeed| :=
  obstacle_speed_loss_legacy cprims 1000 0 97 96 { currentSpeed := 50 }
    (by norm_num [collisionCooldown])

/-- C5 counterexample: the current obstacle resolver
(`CarController.handleCollision`) violates the claim at pre-impact
velocity `(100, 0)`: it leaves the body velocity — and hence the speed,
100 — unchanged instead of reducing it to 20 % (the Arcade engine's own
restitution bounce is outside this callback), and it is not deterministic
in the collision inputs: two runs identical except for the `Math.random()`
draw produce opposite spin kicks (angular velocity `+0.5` vs `-0.5`). -/
theorem obstacle_collision_cex :
    (handleCollision cprims (6/10) { vx := 100 }).1.vx = 100 ∧
    (handleCollision cprims (6/10) { vx := 100 }).1.vy = 0 ∧
    (handleCollision cprims (6/10) { vx := 100 }).2 = 100 ∧
    (100 : ℚ) ≠ 0.2 * 100 ∧
    (handleCollision cprims (6/10) { vx := 100 }).1.angularVel = 1/2 ∧
    (handleCollision cprims (4/10) { vx := 100 }).1.angularVel = -(1/2) ∧
    ((1 : ℚ)/2) ≠ -(1/2) := by
  refine ⟨rfl, rfl, ?_, by norm_num, ?_, ?_, by norm_num⟩
  · norm_num [handleCollision, carSpeed, cprims, csqrt]
  · norm_num [handleCollision, carSpeed, cprims, csqrt]
  · norm_num [handleCollision, carSpeed, cprims, csqrt]

-- ---- C2: heading is not normalized; only angle differences are wrapped ----

/-- C2 (amended): the integration step never normalizes the heading angle
itself (the counterexample drives it to 4 > π in one step, and it keeps
accumulating across laps); what the controller does wrap is every angular
difference (drift angle) before comparison: the wrap loops always land in
`[-mPI, mPI]`, `mPI` being the double `Math.PI`. -/
theorem drift_wrap_in_range : ∀ q : ℚ, -mPI ≤ wrapPi q ∧ wrapPi q ≤ mPI :=
  fun q => ⟨wrapUp_ge _, wrapUp_le _ (wrapDown_le q)⟩

/-- C2 counterexample: one forward update from heading 0 with full right
steer at top speed (velocity `(310, 0)`, `dt = 1`) leaves the heading at
4, which is greater than π — the heading is not kept in `(-π, π]`. -/
theorem heading_not_normalized_cex :
    Real.pi < ((updateForward cprims 1920 1080
        { vx := 310 } { turnInput := 1 } 1).headAngle : ℝ) := by
  have h4 : (updateForward cprims 1920 1080
      { vx := 310 } { turnInput := 1 } 1).headAngle = 4 := by
    rw [updateForward_headAngle]
    norm_num [steeredAngularVel, carSpeed, cprims, csqrt, cexp, catan2,
      wrapPi_zero, maxSpeed, targetAngularVel, minSteerFraction,
      steerSmoothing, maxDriftAngle, driftSoftness]
  rw [h4]
  push_cast
  linarith [Real.pi_lt_d2]

-- ---- C1: dt = 0 is not a complete no-op ----

theorem steeredAngularVel_dt_zero (P : MathPrims) (s : CarState)
    (input : CarInput) (hexp : P.exp 0 = 1)
    (hav : |s.angularVel| ≤ targetAngularVel) :
    steeredAngularVel P s input 0 = s.angularVel := by
  have h1 : max s.angularVel (-targetAngularVel) = s.angularVel :=
    max_eq_left (abs_le.mp hav).1
  have h2 : min s.angularVel targetAngularVel = s.angularVel :=
    min_eq_left (abs_le.mp hav).2
  simp only [steeredAngularVel, mul_zero, neg_zero, hexp, sub_self,
    sub_zero, add_zero, h1, h2, ite_self]

theorem grippedVel_dt_zero (P : MathPrims) (s : CarState) (input : CarInput)
    (hexp : P.exp 0 = 1) (hsqrt1 : P.sqrt 1 = 1)
    (hsp2 : carSpeed P s * carSpeed P s = s.vx * s.vx + s.vy * s.vy) :
    grippedVel P s input 0 = (s.vx, s.vy) := by
  by_cases hs : 1 < carSpeed P s
  · have hne : carSpeed P s ≠ 0 := (lt_trans zero_lt_one hs).ne'
    have harg : s.vx / carSpeed P s * (s.vx / carSpeed P s) +
        s.vy / carSpeed P s * (s.vy / carSpeed P s) = 1 := by
      field_simp
      linear_combination -hsp2
    rw [grippedVel, if_pos hs]
    simp only [mul_zero, neg_zero, hexp, sub_self, add_zero]
    rw [harg, hsqrt1, if_pos (by norm_num : (0.001 : ℚ) < 1)]
    rw [div_one, div_one, div_mul_cancel₀ _ hne, div_mul_cancel₀ _ hne]
  · rw [grippedVel, if_neg hs]

theorem boostPairOf_dt_zero (s : CarState) (input : CarInput)
    (hfuel : 0 ≤ s.boostFuel) (hbi0 : 0 ≤ s.boostIntensity)
    (hbi1 : s.boostIntensity ≤ 1) :
    boostPairOf s input 0 = (s.boostIntensity, s.boostFuel) := by
  rw [boostPairOf]
  split_ifs with hb
  · rw [mul_zero, add_zero, mul_zero, sub_zero, min_eq_right hbi1,
      max_eq_right hfuel]
  · rw [mul_zero, sub_zero, max_eq_right hbi0]

theorem tireMarkNext_dt_zero (P : MathPrims) (s : CarState) (input : CarInput)
    (hexp : P.exp 0 = 1)
    (htmi : s.tireMarkIntensity = 0 ∨ 1/100 ≤ s.tireMarkIntensity) :
    tireMarkNext P s input 0 = s.tireMarkIntensity := by
  rw [tireMarkNext]
  simp only [mul_zero, neg_zero, hexp, sub_self, add_zero]
  split_ifs with hc
  · rcases htmi with h0 | hge
    · exact h0.symm
    · exfalso
      have h2 := hc.2
      norm_num at h2
      linarith
  · rfl

theorem torusWrap_of_mem (bound q : ℚ) (hb : 0 < bound) (h0 : 0 ≤ q)
    (h1 : q < bound) : torusWrap bound q = q := by
  rw [torusWrap]
  have hfl : ⌊q / bound⌋ = 0 := by
    rw [Int.floor_eq_zero_iff]
    exact ⟨div_nonneg h0 hb.le, (div_lt_one hb).mpr h1⟩
  rw [hfl]
  ring

/-- C1 (amended): a forward update with `dt = 0` leaves position (for a
car strictly inside the arena), velocity, heading, boost fuel, boost
intensity and tire-mark intensity unchanged — but it is NOT a complete
no-op on the car state: the fixed per-tick damping `angularVel *= 0.95`
runs regardless of `dt`, so the angular velocity comes out multiplied by
0.95 (see the counterexample). -/
theorem dt_zero_freezes_all_but_angularVel (P : MathPrims) (w h : ℚ)
    (s : CarState) (input : CarInput)
    (hexp : P.exp 0 = 1) (hsqrt1 : P.sqrt 1 = 1)
    (hsp2 : carSpeed P s * carSpeed P s = s.vx * s.vx + s.vy * s.vy)
    (hx0 : 0 ≤ s.x) (hxw : s.x < w) (hy0 : 0 ≤ s.y) (hyh : s.y < h)
    (hw : 0 < w) (hh : 0 < h)
    (hfuel : 0 ≤ s.boostFuel) (hbi0 : 0 ≤ s.boostIntensity)
    (hbi1 : s.boostIntensity ≤ 1)
    (hav : |s.angularVel| ≤ targetAngularVel)
    (htmi : s.tireMarkIntensity = 0 ∨ 1/100 ≤ s.tireMarkIntensity) :
    (updateForward P w h s input 0).x = s.x ∧
    (updateForward P w h s input 0).y = s.y ∧
    (updateForward P w h s input 0).vx = s.vx ∧
    (updateForward P w h s input 0).vy = s.vy ∧
    (updateForward P w h s input 0).headAngle = s.headAngle ∧
    (updateForward P w h s input 0).boostFuel = s.boostFuel ∧
    (updateForward P w h s input 0).boostIntensity = s.boostIntensity ∧
    (updateForward P w h s input 0).tireMarkIntensity = s.tireMarkIntensity ∧
    (updateForward P w h s input 0).angularVel = 0.95 * s.angularVel := by
  refine ⟨?_, ?_, ?_, ?_, ?_, ?_, ?_, ?_, ?_⟩
  · rw [updateForward_x, edgeWrap, if_neg (not_lt.mpr hx0),
      if_neg (not_lt.mpr hxw.le), torusWrap_of_mem w s.x hw hx0 hxw]
  · rw [updateForward_y, edgeWrap, if_neg (not_lt.mpr hy0),
      if_neg (not_lt.mpr hyh.le), torusWrap_of_mem h s.y hh hy0 hyh]
  · rw [updateForward_vx, grippedVel_dt_zero P s input hexp hsqrt1 hsp2]
  · rw [updateForward_vy, grippedVel_dt_zero P s input hexp hsqrt1 hsp2]
  · rw [updateForward_headAngle, mul_zero, add_zero]
  · rw [updateForward_boostFuel, boostPairOf_dt_zero s input hfuel hbi0 hbi1]
  · rw [updateForward_boostIntensity,
      boostPairOf_dt_zero s input hfuel hbi0 hbi1]
  · rw [updateForward_tireMarkIntensity,
      tireMarkNext_dt_zero P s input hexp htmi]
  · rw [updateForward_angularVel, steeredAngularVel_dt_zero P s input hexp hav]
    ring

theorem dt_zero_freezes_witness :
    (updateForward cprims 1920 1080 c1Car {} 0).x = c1Car.x ∧
    (updateForward cprims 1920 1080 c1Car {} 0).y = c1Car.y ∧
    (updateForward cprims 1920 1080 c1Car {} 0).vx = c1Car.vx ∧
    (updateForward cprims 1920 1080 c1Car {} 0).vy = c1Car.vy ∧
    (updateForward cprims 1920 1080 c1Car {} 0).headAngle = c1Car.headAngle ∧
    (updateForward cprims 1920 1080 c1Car {} 0).boostFuel = c1Car.boostFuel ∧
    (updateForward cprims 1920 1080 c1Car {} 0).boostIntensity
        = c1Car.boostIntensity ∧
    (updateForward cprims 1920 1080 c1Car {} 0).tireMarkIntensity
        = c1Car.tireMarkIntensity ∧
    (updateForward cprims 1920 1080 c1Car {} 0).angularVel
        = 0.95 * c1Car.angularVel :=
  dt_zero_freezes_all_but_angularVel cprims 1920 1080 c1Car {}
    (by norm_num [cprims, cexp]) (by norm_num [cprims, csqrt])
    (by norm_num [carSpeed, cprims, csqrt, c1Car])
    (by norm_num [c1Car]) (by norm_num [c1Car])
    (by norm_num [c1Car]) (by norm_num [c1Car])
    (by norm_num) (by norm_num)
    (by norm_num [c1Car]) (by norm_num [c1Car])
    (by norm_num [c1Car])
    (by norm_num [c1Car, targetAngularVel])
    (Or.inl (by norm_num [c1Car]))

/-- C1 counterexample: with `dt = 0` the forward update is not a no-op: a
car with angular velocity 1 (all other fields benign) comes out with
angular velocity 0.95, because the per-tick damping `angularVel *= 0.95`
is applied unconditionally. -/
theorem dt_zero_not_noop_cex :
    (updateForward cprims 1920 1080
        { x := 100, y := 100, angularVel := 1 } {} 0).angularVel = 19/20 ∧
    (updateForward cprims 1920 1080
        { x := 100, y := 100, angularVel := 1 } {} 0).angularVel
      ≠ ({ x := 100, y := 100, angularVel := 1 } : CarState).angularVel := by
  have hsav : steeredAngularVel cprims
      { x := 100, y := 100, angularVel := 1 } {} 0 = 1 := by
    norm_num [steeredAngularVel, carSpeed, cprims, csqrt, cexp]
  rw [updateForward_angularVel, hsav]
  norm_num

end DriftDriver
